import Mathlib

/-!
Shallow embedding of the change-tracking core of `src/sync.py`
(youtube-newpipe-sync): snapshot diffing (`compare_subscriptions`),
the bounded timeline ledger (`update_timeline`), and the HTML report
renderer (`generate_cleanup_html`), together with theorems settling the
specification claims about them.

Modelling conventions:
* Python dicts/lists of channel records become Lean structures and lists.
* Python `set` objects only ever feed membership tests and list
  comprehensions here; their enumeration order is implementation-defined
  in CPython, so sets of ids are modelled as deduplicated id lists.  All
  properties proved about the diff are independent of the enumeration
  order chosen.
* A Python dict built by `{ch["id"]: ch for ch in l}` maps an id to the
  LAST record of `l` carrying it; lookup is modelled by `lastWithId`.
* Machine integers do not overflow here (lengths of small lists), so
  counts are `Nat`.
-/

/-- Channel record `{"id": ..., "name": ...}` as built in `main` and stored
in metadata (`src/sync.py` line 471-474). -/
structure Channel where
  id : String
  name : String
deriving DecidableEq

/-- Result dict of `compare_subscriptions`: the three channel lists. -/
structure DiffResult where
  added : List Channel
  removed : List Channel
  unchanged : List Channel
deriving DecidableEq

/-- The slice of the persisted metadata dict that the embedded core
reads: `last_updated`, `subscription_count` and `channels`
(`src/sync.py` lines 503-512). -/
structure Metadata where
  last_updated : String
  subscription_count : Nat
  channels : List Channel
deriving DecidableEq

/-- A timeline entry as built by `update_timeline` (`src/sync.py`
lines 84-94), with the nested `changes` dict flattened into fields. -/
structure TimelineEntry where
  timestamp : String
  subscription_count : Nat
  added_count : Nat
  removed_count : Nat
  unchanged_count : Nat
  added_channels : List Channel
  removed_channels : List Channel
deriving DecidableEq

/-- The timeline dict `{"entries": [...]}`. -/
structure Timeline where
  entries : List TimelineEntry
deriving DecidableEq

/-- `MAX_TIMELINE_ENTRIES = 50` (`src/sync.py` line 18). -/
def MAX_TIMELINE_ENTRIES : Nat := 50

/-- Lookup in the dict `{ch["id"]: ch for ch in l}`: the dict
comprehension lets later bindings win, so the value stored under `cid`
is the last element of `l` whose id is `cid`. -/
def lastWithId (l : List Channel) (cid : String) : Option Channel :=
  (l.filter (fun c => decide (c.id = cid))).getLast?

/-- Embedding of `compare_subscriptions(current_channels, previous_metadata)`
(`src/sync.py` lines 105-124).  `none` stands for a falsy
`previous_metadata` (first run).  The id sets are modelled as
deduplicated id lists (set enumeration order is implementation-defined
in CPython and no claim depends on it); `current_by_id`/`previous_channels`
lookups are `lastWithId` (dict comprehension, last binding wins). -/
def compare_subscriptions (current_channels : List Channel)
    (previous_metadata : Option Metadata) : DiffResult :=
  match previous_metadata with
  | none => { added := current_channels, removed := [], unchanged := [] }
  | some prev =>
      let previous_ids := (prev.channels.map Channel.id).dedup
      let current_ids := (current_channels.map Channel.id).dedup
      let added_ids := current_ids.filter (fun i => decide (i ∉ previous_ids))
      let removed_ids := previous_ids.filter (fun i => decide (i ∉ current_ids))
      let unchanged_ids := current_ids.filter (fun i => decide (i ∈ previous_ids))
      { added := added_ids.filterMap (lastWithId current_channels)
        removed := removed_ids.filterMap (lastWithId prev.channels)
        unchanged := unchanged_ids.filterMap (lastWithId current_channels) }

/-- The entry dict built at the top of `update_timeline`
(`src/sync.py` lines 84-94). -/
def mkTimelineEntry (changes : DiffResult) (metadata : Metadata) : TimelineEntry :=
  { timestamp := metadata.last_updated
    subscription_count := metadata.subscription_count
    added_count := changes.added.length
    removed_count := changes.removed.length
    unchanged_count := changes.unchanged.length
    added_channels := changes.added
    removed_channels := changes.removed }

/-- Embedding of `update_timeline(timeline, changes, metadata)`
(`src/sync.py` lines 82-102).  The Python slice `l[-N:]` keeps the last
`min N (len l)` elements, i.e. drops `len l - N` from the front. -/
def update_timeline (timeline : Timeline) (changes : DiffResult)
    (metadata : Metadata) : Timeline :=
  let entry := mkTimelineEntry changes metadata
  if changes.added ≠ [] ∨ changes.removed ≠ [] ∨ timeline.entries = [] then
    { entries := (timeline.entries ++ [entry]).drop
        ((timeline.entries ++ [entry]).length - MAX_TIMELINE_ENTRIES) }
  else
    timeline

/-- Iterate `update_timeline` over a sequence of sync runs starting from
the empty timeline `{"entries": []}` (as `load_timeline` yields on the
first run); harness for claims quantifying over call sequences. -/
def runTimeline (inputs : List (DiffResult × Metadata)) : Timeline :=
  inputs.foldl (fun t p => update_timeline t p.1 p.2) { entries := [] }

/-- Character-level action of Python's `html.escape` (quote=True): the
five sequential `str.replace` calls act independently per character
(`&` is replaced first and no later replacement output contains a later
target), so the whole is the character-wise map below. -/
def escapeCharList (c : Char) : List Char :=
  if c = '&' then "&amp;".data
  else if c = '<' then "&lt;".data
  else if c = '>' then "&gt;".data
  else if c = '"' then "&quot;".data
  else if c = '\x27' then "&#x27;".data
  else [c]

/-- Embedding of `html.escape(s)` as used by the renderer. -/
def pyEscape (s : String) : String :=
  String.mk (s.data.foldr (fun c acc => escapeCharList c ++ acc) [])

/-- Embedding of Python's `sorted(l, key=lambda x: x["name"])`: CPython's
`sorted` is a stable sort on the key, modelled by Mathlib's (stable)
insertion sort on the name order. -/
def sortByName (l : List Channel) : List Channel :=
  List.insertionSort (fun a b => a.name ≤ b.name) l

instance : IsTotal Channel (fun a b => a.name ≤ b.name) :=
  ⟨fun a b => le_total a.name b.name⟩

instance : IsTrans Channel (fun a b => a.name ≤ b.name) :=
  ⟨fun _ _ _ h h2 => le_trans h h2⟩

/-- Modelled from the spec: the renderer shows a "formatted timestamp"
produced by the external date-time library
(`datetime.fromisoformat(...).strftime(...)`, `src/sync.py` line 364);
the formatting itself is a library black box outside the embedded core
and is modelled as the identity on the timestamp string.  No claim
depends on its value. -/
def formatTimestamp (ts : String) : String := ts

def headPart1 : String :=
  "<!DOCTYPE html>\n<html lang=\"en\">\n<head>\n    <meta charset=\"UTF-8\">\n    <meta name=\"viewport\" content=\"width=device-width, initial-scale=1.0\">\n    <title>NewPipe Cleanup Guide</title>\n    <style>\n        body \x7b\n            font-family: -apple-system, BlinkMacSystemFont, \x27Segoe UI\x27, Roboto, Oxygen, Ubuntu, Cantarell, sans-serif;\n            max-width: 800px;\n            margin: 0 auto;\n            padding: 20px;\n            background: #f5f5f5;\n        \x7d\n        .card \x7b\n            background: white;\n            border-radius: 8px;\n            padding: 20px;\n            margin: 20px 0;\n            box-shadow: 0 2px 4px rgba(0,0,0,0.1);\n        \x7d\n        h1 \x7b\n            color: #333;\n            margin-top: 0;\n        \x7d\n        h2 \x7b\n            color: #666;\n            border-bottom: 2px solid #e0e0e0;\n            padding-bottom: 10px;\n        \x7d\n        .summary \x7b\n            display: flex;\n            justify-content: space-around;\n            flex-wrap: wrap;\n            gap: 10px;\n        \x7d\n        .stat \x7b\n            background: #f9f9f9;\n            padding: 15px;\n            border-radius: 4px;\n            text-align: center;\n            flex: 1;\n            min-width: 120px;\n        \x7d\n        .stat-number \x7b\n            font-size: 2em;\n            font-weight: bold;\n            color: #333;\n        \x7d\n        .stat-label \x7b\n            color: #666;\n            font-size: 0.9em;\n        \x7d\n        .removed \x7b color: #d32f2f; \x7d\n        .added \x7b color: #388e3c; \x7d\n        .channel \x7b\n            padding: 10px;\n            margin: 5px 0;\n            background: #fafafa;\n            border-radius: 4px;\n            display: flex;\n            justify-content: space-between;\n            align-items: center;\n        \x7d\n        .channel-name \x7b\n            font-weight: 500;\n        \x7d\n        .channel-link \x7b\n            color: #1976d2;\n            text-decoration: none;\n            font-size: 0.9em;\n        \x7d\n        .empty \x7b\n            color: #999;\n            text-align: center;\n            padding: 20px;\n        \x7d\n        .instructions \x7b\n            background: #fff3cd;\n            border-left: 4px solid #ffc107;\n            padding: 15px;\n            margin: 20px 0;\n        \x7d\n        .timestamp \x7b\n            color: #666;\n            font-size: 0.9em;\n        \x7d\n        .timeline \x7b\n            margin-top: 20px;\n        \x7d\n        .timeline-entry \x7b\n            border-left: 3px solid #1976d2;\n            padding: 15px;\n            margin: 15px 0;\n            background: #fafafa;\n            border-radius: 0 4px 4px 0;\n        \x7d\n        .timeline-entry.no-changes \x7b\n            border-left-color: #999;\n            opacity: 0.7;\n        \x7d\n        .timeline-header \x7b\n            display: flex;\n            justify-content: space-between;\n            align-items: center;\n            margin-bottom: 10px;\n        \x7d\n        .timeline-date \x7b\n            font-weight: bold;\n            color: #333;\n        \x7d\n        .timeline-stats \x7b\n            display: flex;\n            gap: 15px;\n            font-size: 0.9em;\n        \x7d\n        .timeline-detail \x7b\n            margin-top: 10px;\n            font-size: 0.9em;\n        \x7d\n        .timeline-channels \x7b\n            margin-top: 8px;\n            padding-left: 20px;\n        \x7d\n        .hidden \x7b\n            display: none;\n        \x7d\n    </style>\n</head>\n<body>\n    <div class=\"card\">\n        <h1>\uf8ff\u00fc\u00ec\u00b1 NewPipe Cleanup Guide</h1>\n        <p class=\"timestamp\">Last updated: "

def headPart2 : String :=
  "</p>\n\n        <div class=\"summary\">\n            <div class=\"stat\">\n                <div class=\"stat-number\">"

def headPart3 : String :=
  "</div>\n                <div class=\"stat-label\">Total Subscriptions</div>\n            </div>\n            <div class=\"stat\">\n                <div class=\"stat-number added\">"

def headPart4 : String :=
  "</div>\n                <div class=\"stat-label\">Added</div>\n            </div>\n            <div class=\"stat\">\n                <div class=\"stat-number removed\">"

def headPart5 : String :=
  "</div>\n                <div class=\"stat-label\">Removed</div>\n            </div>\n        </div>\n    </div>\n\n    <div class=\"card\">\n        <h2>\uf8ff\u00fc\u00ec\u2022 Step 1: Import New Subscriptions</h2>\n        <div class=\"instructions\">\n            <strong>Import this file to add new YouTube subscriptions to NewPipe:</strong>\n        </div>\n        <div style=\"background: #f5f5f5; padding: 15px; border-radius: 4px; margin: 15px 0; word-break: break-all;\">\n            <strong>NewPipe Format:</strong><br>\n            <a href=\"subscriptions.json\" style=\"color: #1976d2;\">subscriptions.json</a><br><br>\n            <strong>YouTube CSV Format (Google Takeout compatible):</strong><br>\n            <a href=\"subscriptions.csv\" style=\"color: #1976d2;\">subscriptions.csv</a>\n        </div>\n        <div style=\"padding-left: 20px;\">\n            <strong>How to import (NewPipe):</strong>\n            <ol>\n                <li>Open NewPipe on your phone</li>\n                <li>Tap the \u201a\u00f2\u221e menu (top-left)</li>\n                <li>Go to <strong>Settings</strong> \u201a\u00dc\u00ed <strong>Content</strong></li>\n                <li>Tap <strong>Import from file</strong></li>\n                <li>Paste the URL above or download and select the file</li>\n                <li>Tap <strong>Import</strong></li>\n            </ol>\n            <p style=\"color: #666; font-size: 0.9em;\">\n                \uf8ff\u00fc\u00ed\u00b0 <em>Tip: Bookmark the subscriptions.json URL for easy access!</em><br>\n                \uf8ff\u00fc\u00ec\u00e4 <em>The CSV format can be imported into YouTube or other compatible apps.</em>\n            </p>\n        </div>\n    </div>\n"

def removedSectionHeader : String :=
  "\n    <div class=\"card\">\n        <h2 class=\"removed\">\u201a\u00f9\u00e5 Step 2: Remove Old Subscriptions</h2>\n        <div class=\"instructions\">\n            <strong>These channels were removed from your YouTube subscriptions.</strong><br>\n            To clean up NewPipe, manually unsubscribe from each channel below:\n            <ol>\n                <li>Open NewPipe</li>\n                <li>Tap the <strong>Subscriptions</strong> tab</li>\n                <li><strong>Long-press</strong> the channel</li>\n                <li>Select <strong>Unsubscribe</strong></li>\n            </ol>\n        </div>\n"

def chanDivPart1 : String :=
  "\n        <div class=\"channel\">\n            <span class=\"channel-name\">"

def chanDivPart2 : String :=
  "</span>\n            <a href=\"https://www.youtube.com/channel/"

def chanDivPart3 : String :=
  "\" class=\"channel-link\" target=\"_blank\">View</a>\n        </div>"

def cardClose : String :=
  "\n    </div>"

def noCleanupSection : String :=
  "\n    <div class=\"card\">\n        <h2>\u201a\u00fa\u00d6 No Cleanup Needed</h2>\n        <p class=\"empty\">All your NewPipe subscriptions match YouTube!</p>\n    </div>"

def addedSectionHeader : String :=
  "\n    <div class=\"card\">\n        <h2 class=\"added\">\u201a\u00fa\u00ae New Channels Added</h2>\n        <p>These channels are new since your last sync. They\x27ll be added when you import subscriptions.json above:</p>\n"

def timelineOpenHtml : String :=
  "\n    <div class=\"card\">\n        <h2>\uf8ff\u00fc\u00ec\u00d6 Change Timeline</h2>\n        <p>History of subscription changes over time:</p>\n        <div class=\"timeline\">\n"

def entryPart1 : String :=
  "\n            <div class=\""

def entryPart2 : String :=
  "\">\n                <div class=\"timeline-header\">\n                    <span class=\"timeline-date\">"

def entryPart3 : String :=
  "</span>\n                    <div class=\"timeline-stats\">\n                        <span>\uf8ff\u00fc\u00ec\u00e4 "

def entryPart4 : String :=
  " total</span>\n"

def statsPart1 : String :=
  "                        <span class=\"added\">+"

def statsPart2 : String :=
  "</span>\n                        <span class=\"removed\">-"

def statsPart3 : String :=
  "</span>\n"

def statsNone : String :=
  "                        <span style=\"color: #999;\">No changes</span>\n"

def entryHeadClose : String :=
  "                    </div>\n                </div>\n"

def addedDetailPart1 : String :=
  "\n                <div class=\"timeline-detail\">\n                    <strong class=\"added\">Added "

def addedDetailPart2 : String :=
  " channel(s):</strong>\n                    <div class=\"timeline-channels\">\n"

def tlChanPart1 : String :=
  "                        \u201a\u00c4\u00a2 "

def tlChanPart2 : String :=
  "<br>\n"

def morePart1 : String :=
  "                        <em>... and "

def morePart2 : String :=
  " more</em><br>\n"

def detailClose : String :=
  "                    </div>\n                </div>\n"

def removedDetailPart1 : String :=
  "\n                <div class=\"timeline-detail\">\n                    <strong class=\"removed\">Removed "

def removedDetailPart2 : String :=
  " channel(s):</strong>\n                    <div class=\"timeline-channels\">\n"

def entryClose : String :=
  "            </div>\n"

def tlMorePart1 : String :=
  "\n            <p class=\"empty\" style=\"margin-top: 20px;\">\n                Showing last 10 of "

def tlMorePart2 : String :=
  " sync events.\n                Full history is preserved in timeline.json.\n            </p>\n"

def emptyTimelineMsg : String :=
  "\n            <p class=\"empty\">No previous syncs recorded yet. This will build up over time!</p>\n"

def closingHtml : String :=
  "        </div>\n    </div>\n\n</body>\n</html>"

/-- The opening f-string of `generate_cleanup_html` (`src/sync.py`
lines 129-306): static head/summary/step-1 markup with the four
interpolated metadata values. -/
def htmlHead (metadata : Metadata) (changes : DiffResult) : String :=
  headPart1 ++ metadata.last_updated ++ headPart2
    ++ toString metadata.subscription_count ++ headPart3
    ++ toString changes.added.length ++ headPart4
    ++ toString changes.removed.length ++ headPart5

/-- Per-channel block of the removal and added sections (`src/sync.py`
lines 324-328 and 344-348; the two f-strings are textually identical).
Name and id are embedded through `escape`. -/
def channelDivHtml (c : Channel) : String :=
  chanDivPart1 ++ pyEscape c.name ++ chanDivPart2 ++ pyEscape c.id ++ chanDivPart3

/-- Per-channel line of a timeline entry (`src/sync.py` lines 399 and
416; the two f-strings are textually identical).  Only the name is
embedded, through `escape`. -/
def timelineChannelLine (c : Channel) : String :=
  tlChanPart1 ++ pyEscape c.name ++ tlChanPart2

/-- The `... and N more` line (`src/sync.py` lines 402 and 419). -/
def moreLineHtml (k : Nat) : String :=
  morePart1 ++ toString k ++ morePart2

/-- The `Showing last 10 of N sync events` footer (`src/sync.py`
lines 430-435). -/
def timelineMoreHtml (n : Nat) : String :=
  tlMorePart1 ++ toString n ++ tlMorePart2

/-- Header part of one rendered timeline entry (`src/sync.py`
lines 363-389): entry class, formatted timestamp, total count, and
either the added and removed deltas or the `No changes` marker. -/
def entryHeadHtml (e : TimelineEntry) : String :=
  let has_changes := 0 < e.added_count ∨ 0 < e.removed_count
  let entryCls := if has_changes then "timeline-entry" else "timeline-entry no-changes"
  entryPart1 ++ entryCls ++ entryPart2 ++ formatTimestamp e.timestamp
    ++ entryPart3 ++ toString e.subscription_count ++ entryPart4
    ++ (if has_changes then
          statsPart1 ++ toString e.added_count ++ statsPart2
            ++ toString e.removed_count ++ statsPart3
        else statsNone)
    ++ entryHeadClose

/-- One rendered timeline entry: loop body of the timeline section
(`src/sync.py` lines 363-426).  The `for channel in ...[:5]` loops
become joins over `take 5`; the detail blocks appear when the stored
counts are positive, with the `... and N more` line when a count
exceeds 5. -/
def timelineEntryHtml (e : TimelineEntry) : String :=
  entryHeadHtml e
    ++ (if 0 < e.added_count then
          addedDetailPart1 ++ toString e.added_count ++ addedDetailPart2
            ++ String.join ((e.added_channels.take 5).map timelineChannelLine)
            ++ (if 5 < e.added_count then moreLineHtml (e.added_count - 5) else "")
            ++ detailClose
        else "")
    ++ (if 0 < e.removed_count then
          removedDetailPart1 ++ toString e.removed_count ++ removedDetailPart2
            ++ String.join ((e.removed_channels.take 5).map timelineChannelLine)
            ++ (if 5 < e.removed_count then moreLineHtml (e.removed_count - 5) else "")
            ++ detailClose
        else "")
    ++ entryClose

/-- Embedding of `generate_cleanup_html(changes, metadata, timeline)`
(`src/sync.py` lines 127-446), following the sequential `html += ...`
construction: head, step-2 card (removal guidance when `removed` is
non-empty, otherwise the no-cleanup card), optional added card,
timeline card (last 10 entries newest first, plus the hidden-entries
footer when more than 10 exist, or the no-syncs placeholder), closing
markup.  Python truthiness of the lists becomes `≠ []`. -/
def generate_cleanup_html (changes : DiffResult) (metadata : Metadata)
    (timeline : Timeline) : String :=
  let html := htmlHead metadata changes
  let html := html ++
    (if changes.removed ≠ [] then
      removedSectionHeader
        ++ String.join ((sortByName changes.removed).map channelDivHtml)
        ++ cardClose
    else noCleanupSection)
  let html := html ++
    (if changes.added ≠ [] then
      addedSectionHeader
        ++ String.join ((sortByName changes.added).map channelDivHtml)
        ++ cardClose
    else "")
  let html := html ++ timelineOpenHtml
  let html := html ++
    (if timeline.entries ≠ [] then
      String.join
          (((timeline.entries.drop (timeline.entries.length - 10)).reverse).map
            timelineEntryHtml)
        ++ (if 10 < timeline.entries.length then
              timelineMoreHtml timeline.entries.length
            else "")
    else emptyTimelineMsg)
  html ++ closingHtml

theorem scenario_diff_example :
    compare_subscriptions
      [⟨"UC123", "Tech Channel"⟩, ⟨"UC999", "New Channel"⟩]
      (some ⟨"t0", 2, [⟨"UC123", "Tech Channel"⟩, ⟨"UC456", "Gaming Channel"⟩]⟩)
    = { added := [⟨"UC999", "New Channel"⟩]
        removed := [⟨"UC456", "Gaming Channel"⟩]
        unchanged := [⟨"UC123", "Tech Channel"⟩] } := by decide

theorem getLast?_mem {α : Type u} {l : List α} {a : α} (h : l.getLast? = some a) :
    a ∈ l := by
  cases l with
  | nil => simp at h
  | cons x xs =>
    have hne : x :: xs ≠ [] := by simp
    rw [List.getLast?_eq_getLast _ hne, Option.some_inj] at h
    exact h ▸ List.getLast_mem hne

theorem lastWithId_eq_some {l : List Channel} {cid : String} {c : Channel}
    (h : lastWithId l cid = some c) : c ∈ l ∧ c.id = cid := by
  have hmem : c ∈ l.filter (fun x => decide (x.id = cid)) := getLast?_mem h
  have h2 := List.mem_filter.mp hmem
  exact ⟨h2.1, by simpa using h2.2⟩

theorem lastWithId_isSome {l : List Channel} {cid : String}
    (h : cid ∈ l.map Channel.id) : ∃ c, lastWithId l cid = some c := by
  obtain ⟨ch, hch, hid⟩ := List.mem_map.mp h
  have hmemf : ch ∈ l.filter (fun c => decide (c.id = cid)) :=
    List.mem_filter.mpr ⟨hch, by simp [hid]⟩
  have hne : l.filter (fun c => decide (c.id = cid)) ≠ [] :=
    List.ne_nil_of_mem hmemf
  obtain ⟨c, hc⟩ := Option.isSome_iff_exists.mp (List.getLast?_isSome.mpr hne)
  exact ⟨c, hc⟩

theorem map_id_filterMap_lastWithId (l : List Channel) (ids : List String)
    (h : ∀ cid ∈ ids, cid ∈ l.map Channel.id) :
    (ids.filterMap (lastWithId l)).map Channel.id = ids := by
  induction ids with
  | nil => rfl
  | cons cid ids ih =>
    obtain ⟨c, hc⟩ := lastWithId_isSome (h cid (by simp))
    have hmem := lastWithId_eq_some hc
    simp [List.filterMap_cons, hc, hmem.2, ih (fun x hx => h x (by simp [hx]))]

theorem added_def (A : List Channel) (pm : Metadata) :
    (compare_subscriptions A (some pm)).added =
      (((A.map Channel.id).dedup).filter
        (fun i => decide (i ∉ (pm.channels.map Channel.id).dedup))).filterMap
        (lastWithId A) := rfl

theorem removed_def (A : List Channel) (pm : Metadata) :
    (compare_subscriptions A (some pm)).removed =
      (((pm.channels.map Channel.id).dedup).filter
        (fun i => decide (i ∉ (A.map Channel.id).dedup))).filterMap
        (lastWithId pm.channels) := rfl

theorem unchanged_def (A : List Channel) (pm : Metadata) :
    (compare_subscriptions A (some pm)).unchanged =
      (((A.map Channel.id).dedup).filter
        (fun i => decide (i ∈ (pm.channels.map Channel.id).dedup))).filterMap
        (lastWithId A) := rfl

theorem map_id_added (A : List Channel) (pm : Metadata) :
    (compare_subscriptions A (some pm)).added.map Channel.id =
      ((A.map Channel.id).dedup).filter
        (fun i => decide (i ∉ (pm.channels.map Channel.id).dedup)) := by
  rw [added_def]
  exact map_id_filterMap_lastWithId A _
    (fun c hc => List.mem_dedup.mp (List.mem_filter.mp hc).1)

theorem map_id_removed (A : List Channel) (pm : Metadata) :
    (compare_subscriptions A (some pm)).removed.map Channel.id =
      ((pm.channels.map Channel.id).dedup).filter
        (fun i => decide (i ∉ (A.map Channel.id).dedup)) := by
  rw [removed_def]
  exact map_id_filterMap_lastWithId pm.channels _
    (fun c hc => List.mem_dedup.mp (List.mem_filter.mp hc).1)

theorem map_id_unchanged (A : List Channel) (pm : Metadata) :
    (compare_subscriptions A (some pm)).unchanged.map Channel.id =
      ((A.map Channel.id).dedup).filter
        (fun i => decide (i ∈ (pm.channels.map Channel.id).dedup)) := by
  rw [unchanged_def]
  exact map_id_filterMap_lastWithId A _
    (fun c hc => List.mem_dedup.mp (List.mem_filter.mp hc).1)

theorem mem_added_ids {A : List Channel} {pm : Metadata} {cid : String} :
    cid ∈ (compare_subscriptions A (some pm)).added.map Channel.id ↔
      (cid ∈ A.map Channel.id ∧ cid ∉ pm.channels.map Channel.id) := by
  rw [map_id_added, List.mem_filter]
  simp [List.mem_dedup]

theorem mem_removed_ids {A : List Channel} {pm : Metadata} {cid : String} :
    cid ∈ (compare_subscriptions A (some pm)).removed.map Channel.id ↔
      (cid ∈ pm.channels.map Channel.id ∧ cid ∉ A.map Channel.id) := by
  rw [map_id_removed, List.mem_filter]
  simp [List.mem_dedup]

theorem mem_unchanged_ids {A : List Channel} {pm : Metadata} {cid : String} :
    cid ∈ (compare_subscriptions A (some pm)).unchanged.map Channel.id ↔
      (cid ∈ A.map Channel.id ∧ cid ∈ pm.channels.map Channel.id) := by
  rw [map_id_unchanged, List.mem_filter]
  simp [List.mem_dedup]

theorem mem_added_mem {A : List Channel} {pm : Metadata} {e : Channel}
    (h : e ∈ (compare_subscriptions A (some pm)).added) :
    e ∈ A ∧ lastWithId A e.id = some e := by
  rw [added_def] at h
  obtain ⟨cid, _, hlast⟩ := List.mem_filterMap.mp h
  obtain ⟨hmem, hid⟩ := lastWithId_eq_some hlast
  exact ⟨hmem, hid ▸ hlast⟩

theorem mem_unchanged_mem {A : List Channel} {pm : Metadata} {e : Channel}
    (h : e ∈ (compare_subscriptions A (some pm)).unchanged) :
    e ∈ A ∧ lastWithId A e.id = some e := by
  rw [unchanged_def] at h
  obtain ⟨cid, _, hlast⟩ := List.mem_filterMap.mp h
  obtain ⟨hmem, hid⟩ := lastWithId_eq_some hlast
  exact ⟨hmem, hid ▸ hlast⟩

theorem mem_removed_mem {A : List Channel} {pm : Metadata} {e : Channel}
    (h : e ∈ (compare_subscriptions A (some pm)).removed) :
    e ∈ pm.channels ∧ lastWithId pm.channels e.id = some e := by
  rw [removed_def] at h
  obtain ⟨cid, _, hlast⟩ := List.mem_filterMap.mp h
  obtain ⟨hmem, hid⟩ := lastWithId_eq_some hlast
  exact ⟨hmem, hid ▸ hlast⟩

/-- C1: for every current snapshot `A` with unique ids and every
previous snapshot, the three lists returned by `compare_subscriptions`
partition the union of the two id sets (every id of either snapshot
appears in exactly one list, no id in two lists, no duplicate ids within
a list), entities in `added` and `unchanged` are records of the current
snapshot `A`, and entities in `removed` are records of the previous
snapshot. -/
theorem compare_subscriptions_partition (A : List Channel) (pm : Metadata)
    (hA : (A.map Channel.id).Nodup) :
    (∀ cid : String,
        (cid ∈ (compare_subscriptions A (some pm)).added.map Channel.id ∨
         cid ∈ (compare_subscriptions A (some pm)).removed.map Channel.id ∨
         cid ∈ (compare_subscriptions A (some pm)).unchanged.map Channel.id) ↔
        (cid ∈ A.map Channel.id ∨ cid ∈ pm.channels.map Channel.id)) ∧
    (∀ cid : String,
        ¬(cid ∈ (compare_subscriptions A (some pm)).added.map Channel.id ∧
          cid ∈ (compare_subscriptions A (some pm)).removed.map Channel.id) ∧
        ¬(cid ∈ (compare_subscriptions A (some pm)).added.map Channel.id ∧
          cid ∈ (compare_subscriptions A (some pm)).unchanged.map Channel.id) ∧
        ¬(cid ∈ (compare_subscriptions A (some pm)).removed.map Channel.id ∧
          cid ∈ (compare_subscriptions A (some pm)).unchanged.map Channel.id)) ∧
    (((compare_subscriptions A (some pm)).added.map Channel.id).Nodup ∧
     ((compare_subscriptions A (some pm)).removed.map Channel.id).Nodup ∧
     ((compare_subscriptions A (some pm)).unchanged.map Channel.id).Nodup) ∧
    (∀ e ∈ (compare_subscriptions A (some pm)).added, e ∈ A) ∧
    (∀ e ∈ (compare_subscriptions A (some pm)).unchanged, e ∈ A) ∧
    (∀ e ∈ (compare_subscriptions A (some pm)).removed, e ∈ pm.channels) := by
  refine ⟨?_, ?_, ⟨?_, ?_, ?_⟩, ?_, ?_, ?_⟩
  · intro cid
    rw [mem_added_ids, mem_removed_ids, mem_unchanged_ids]
    by_cases h1 : cid ∈ A.map Channel.id <;>
      by_cases h2 : cid ∈ pm.channels.map Channel.id <;> tauto
  · intro cid
    rw [mem_added_ids, mem_removed_ids, mem_unchanged_ids]
    tauto
  · rw [map_id_added]
    exact (List.nodup_dedup _).filter _
  · rw [map_id_removed]
    exact (List.nodup_dedup _).filter _
  · rw [map_id_unchanged]
    exact (List.nodup_dedup _).filter _
  · exact fun e he => (mem_added_mem he).1
  · exact fun e he => (mem_unchanged_mem he).1
  · exact fun e he => (mem_removed_mem he).1

theorem compare_subscriptions_partition_witness :
    (⟨"UCa", "Alpha"⟩ : Channel) ∈
      [(⟨"UCa", "Alpha"⟩ : Channel), ⟨"UCb", "Beta"⟩] :=
  (compare_subscriptions_partition
      [⟨"UCa", "Alpha"⟩, ⟨"UCb", "Beta"⟩]
      ⟨"t0", 2, [⟨"UCb", "Beta old"⟩, ⟨"UCc", "Gamma"⟩]⟩
      (by decide)).2.2.2.1 ⟨"UCa", "Alpha"⟩ (by decide)

/-- C4: on a first run (absent previous snapshot) the diff returns the
whole current snapshot as `added`, in order, with `removed` and
`unchanged` empty. -/
theorem compare_subscriptions_first_run (A : List Channel) :
    compare_subscriptions A none =
      { added := A, removed := [], unchanged := [] } := rfl

/-- C10: even when the current snapshot contains several entities with
the same id, each list returned by `compare_subscriptions` holds at most
one entity per id, and the record kept for an id that is duplicated in
the current input is the last occurrence in that input (last binding
wins in the id-keyed dicts). -/
theorem compare_subscriptions_last_wins (A : List Channel) (pm : Metadata) :
    ((compare_subscriptions A (some pm)).added.map Channel.id).Nodup ∧
    ((compare_subscriptions A (some pm)).removed.map Channel.id).Nodup ∧
    ((compare_subscriptions A (some pm)).unchanged.map Channel.id).Nodup ∧
    (∀ e, (e ∈ (compare_subscriptions A (some pm)).added ∨
           e ∈ (compare_subscriptions A (some pm)).unchanged) →
      (A.filter (fun c => decide (c.id = e.id))).getLast? = some e) := by
  refine ⟨?_, ?_, ?_, ?_⟩
  · rw [map_id_added]
    exact (List.nodup_dedup _).filter _
  · rw [map_id_removed]
    exact (List.nodup_dedup _).filter _
  · rw [map_id_unchanged]
    exact (List.nodup_dedup _).filter _
  · intro e he
    rcases he with h | h
    · exact (mem_added_mem h).2
    · exact (mem_unchanged_mem h).2

theorem compare_subscriptions_last_wins_witness :
    ([(⟨"UCdup", "first name"⟩ : Channel), ⟨"UCdup", "second name"⟩].filter
      (fun c => decide (c.id = (⟨"UCdup", "second name"⟩ : Channel).id))).getLast?
      = some ⟨"UCdup", "second name"⟩ :=
  (compare_subscriptions_last_wins
      [⟨"UCdup", "first name"⟩, ⟨"UCdup", "second name"⟩]
      ⟨"t0", 0, []⟩).2.2.2 ⟨"UCdup", "second name"⟩ (Or.inl (by decide))

theorem drop_concat_getLast {α : Type u} (l : List α) (a : α) (k : Nat)
    (h : k ≤ l.length) : ((l ++ [a]).drop k).getLast? = some a := by
  rw [List.drop_append_eq_append_drop]
  have h0 : k - l.length = 0 := by omega
  rw [h0]
  simp [List.getLast?_concat]

/-- C2: `update_timeline` appends a new entry exactly when `added` is
non-empty, `removed` is non-empty, or the timeline has no entries yet;
when it appends, the new entry becomes the last entry and the list is
the (front-truncated) extension of the old one; when none of the
conditions holds, the timeline is returned unchanged. -/
theorem update_timeline_append_iff (t : Timeline) (c : DiffResult) (m : Metadata) :
    ((c.added ≠ [] ∨ c.removed ≠ [] ∨ t.entries = []) →
      (update_timeline t c m).entries =
        (t.entries ++ [mkTimelineEntry c m]).drop
          (t.entries.length + 1 - MAX_TIMELINE_ENTRIES) ∧
      (update_timeline t c m).entries.getLast? = some (mkTimelineEntry c m)) ∧
    (¬(c.added ≠ [] ∨ c.removed ≠ [] ∨ t.entries = []) →
      update_timeline t c m = t) := by
  constructor
  · intro h
    have heq : (update_timeline t c m).entries =
        (t.entries ++ [mkTimelineEntry c m]).drop
          (t.entries.length + 1 - MAX_TIMELINE_ENTRIES) := by
      simp [update_timeline, h]
    refine ⟨heq, ?_⟩
    rw [heq]
    exact drop_concat_getLast _ _ _ (by unfold MAX_TIMELINE_ENTRIES; omega)
  · intro h
    simp [update_timeline, h]

theorem update_timeline_append_iff_witness :
    ((update_timeline ⟨[]⟩ ⟨[], [], []⟩ ⟨"t1", 0, []⟩).entries =
      (([] : List TimelineEntry) ++ [mkTimelineEntry ⟨[], [], []⟩ ⟨"t1", 0, []⟩]).drop
        ((([] : List TimelineEntry)).length + 1 - MAX_TIMELINE_ENTRIES) ∧
     (update_timeline ⟨[]⟩ ⟨[], [], []⟩ ⟨"t1", 0, []⟩).entries.getLast? =
      some (mkTimelineEntry ⟨[], [], []⟩ ⟨"t1", 0, []⟩)) :=
  (update_timeline_append_iff ⟨[]⟩ ⟨[], [], []⟩ ⟨"t1", 0, []⟩).1
    (Or.inr (Or.inr rfl))

theorem update_timeline_length_le (t : Timeline) (c : DiffResult) (m : Metadata)
    (h : t.entries.length ≤ MAX_TIMELINE_ENTRIES) :
    (update_timeline t c m).entries.length ≤ MAX_TIMELINE_ENTRIES := by
  unfold update_timeline
  split
  · simp only [List.length_drop, List.length_append, List.length_cons,
      List.length_nil]
    omega
  · exact h

/-- C3: starting from an empty timeline, after any sequence of
`update_timeline` calls the entry list never exceeds
`MAX_TIMELINE_ENTRIES` (50); and whenever an append would exceed the
bound, the oldest entries are dropped from the front so that exactly the
50 most recent entries remain. -/
theorem timeline_bounded :
    (∀ inputs : List (DiffResult × Metadata),
      (runTimeline inputs).entries.length ≤ MAX_TIMELINE_ENTRIES) ∧
    (∀ (t : Timeline) (c : DiffResult) (m : Metadata),
      (c.added ≠ [] ∨ c.removed ≠ [] ∨ t.entries = []) →
      MAX_TIMELINE_ENTRIES < t.entries.length + 1 →
      (update_timeline t c m).entries.length = MAX_TIMELINE_ENTRIES ∧
      (update_timeline t c m).entries =
        (t.entries ++ [mkTimelineEntry c m]).drop
          (t.entries.length + 1 - MAX_TIMELINE_ENTRIES)) := by
  constructor
  · have aux : ∀ (inputs : List (DiffResult × Metadata)) (t : Timeline),
        t.entries.length ≤ MAX_TIMELINE_ENTRIES →
        (inputs.foldl (fun t p => update_timeline t p.1 p.2) t).entries.length ≤
          MAX_TIMELINE_ENTRIES := by
      intro inputs
      induction inputs with
      | nil => exact fun t h => h
      | cons p ps ih =>
          intro t h
          exact ih _ (update_timeline_length_le _ _ _ h)
    intro inputs
    exact aux inputs ⟨[]⟩ (by simp [MAX_TIMELINE_ENTRIES])
  · intro t c m h hover
    have heq : (update_timeline t c m).entries =
        (t.entries ++ [mkTimelineEntry c m]).drop
          (t.entries.length + 1 - MAX_TIMELINE_ENTRIES) := by
      simp [update_timeline, h]
    refine ⟨?_, heq⟩
    rw [heq]
    simp only [List.length_drop, List.length_append, List.length_cons,
      List.length_nil]
    omega

theorem timeline_bounded_witness :
    (update_timeline ⟨List.replicate 50 ⟨"t", 0, 0, 0, 0, [], []⟩⟩
        ⟨[⟨"UCx", "X"⟩], [], []⟩ ⟨"t51", 1, []⟩).entries.length =
      MAX_TIMELINE_ENTRIES :=
  (timeline_bounded.2 ⟨List.replicate 50 ⟨"t", 0, 0, 0, 0, [], []⟩⟩
      ⟨[⟨"UCx", "X"⟩], [], []⟩ ⟨"t51", 1, []⟩
      (Or.inl (by decide))
      (by simp [MAX_TIMELINE_ENTRIES])).1

/-- C5: on a non-empty timeline, a diff with empty `added` and `removed`
causes no append: calling `update_timeline` once, or twice in
succession, with that diff leaves the timeline unchanged. -/
theorem update_timeline_no_change_noop (t : Timeline) (c : DiffResult)
    (m : Metadata) (hne : t.entries ≠ []) (ha : c.added = [])
    (hr : c.removed = []) :
    update_timeline t c m = t ∧
    update_timeline (update_timeline t c m) c m = t := by
  have h1 : update_timeline t c m = t := by
    simp [update_timeline, ha, hr, hne]
  exact ⟨h1, by rw [h1, h1]⟩

theorem update_timeline_no_change_noop_witness :
    (update_timeline ⟨[⟨"t0", 3, 0, 0, 3, [], []⟩]⟩ ⟨[], [], []⟩ ⟨"t1", 3, []⟩ =
      ⟨[⟨"t0", 3, 0, 0, 3, [], []⟩]⟩ ∧
     update_timeline
        (update_timeline ⟨[⟨"t0", 3, 0, 0, 3, [], []⟩]⟩ ⟨[], [], []⟩ ⟨"t1", 3, []⟩)
        ⟨[], [], []⟩ ⟨"t1", 3, []⟩ =
      ⟨[⟨"t0", 3, 0, 0, 3, [], []⟩]⟩) :=
  update_timeline_no_change_noop ⟨[⟨"t0", 3, 0, 0, 3, [], []⟩]⟩ ⟨[], [], []⟩
    ⟨"t1", 3, []⟩ (by decide) rfl rfl

theorem mem_escapeCharList {c ch : Char} (h : ch ∈ escapeCharList c) :
    ch ≠ '<' ∧ ch ≠ '>' ∧ ch ≠ '"' ∧ ch ≠ '\x27' := by
  unfold escapeCharList at h
  by_cases h1 : c = '&'
  · rw [if_pos h1] at h
    fin_cases h <;> decide
  · rw [if_neg h1] at h
    by_cases h2 : c = '<'
    · rw [if_pos h2] at h
      fin_cases h <;> decide
    · rw [if_neg h2] at h
      by_cases h3 : c = '>'
      · rw [if_pos h3] at h
        fin_cases h <;> decide
      · rw [if_neg h3] at h
        by_cases h4 : c = '"'
        · rw [if_pos h4] at h
          fin_cases h <;> decide
        · rw [if_neg h4] at h
          by_cases h5 : c = '\x27'
          · rw [if_pos h5] at h
            fin_cases h <;> decide
          · rw [if_neg h5] at h
            simp only [List.mem_singleton] at h
            subst h
            exact ⟨h2, h3, h4, h5⟩

theorem escape_fold_no_markup (l : List Char) :
    ∀ ch ∈ l.foldr (fun c acc => escapeCharList c ++ acc) [],
      ch ≠ '<' ∧ ch ≠ '>' ∧ ch ≠ '"' ∧ ch ≠ '\x27' := by
  induction l with
  | nil => intro ch hch; simp at hch
  | cons c l ih =>
    intro ch hch
    simp only [List.foldr_cons, List.mem_append] at hch
    rcases hch with h | h
    · exact mem_escapeCharList h
    · exact ih ch h

theorem pyEscape_no_markup (s : String) :
    ∀ ch ∈ (pyEscape s).data,
      ch ≠ '<' ∧ ch ≠ '>' ∧ ch ≠ '"' ∧ ch ≠ '\x27' :=
  fun ch hch => escape_fold_no_markup s.data ch hch

theorem orderedInsert_filter_name (c : Channel) (l : List Channel) (s : String) :
    ((List.orderedInsert (fun a b => a.name ≤ b.name) c l).filter
        (fun x => decide (x.name = s))) =
      ((c :: l).filter (fun x => decide (x.name = s))) := by
  induction l with
  | nil => rfl
  | cons d l ih =>
    by_cases hcd : c.name ≤ d.name
    · have hins : List.orderedInsert (fun a b => a.name ≤ b.name) c (d :: l) =
          c :: d :: l := by
        simp only [List.orderedInsert]
        rw [if_pos hcd]
      rw [hins]
    · have hins : List.orderedInsert (fun a b => a.name ≤ b.name) c (d :: l) =
          d :: List.orderedInsert (fun a b => a.name ≤ b.name) c l := by
        simp only [List.orderedInsert]
        rw [if_neg hcd]
      rw [hins]
      have hdc : d.name < c.name := lt_of_not_le hcd
      rw [List.filter_cons, ih, List.filter_cons, List.filter_cons,
        List.filter_cons]
      by_cases hc : c.name = s <;> by_cases hd : d.name = s
      · exfalso
        rw [show c.name = d.name from hc.trans hd.symm] at hdc
        exact lt_irrefl _ hdc
      · simp [hc, hd]
      · simp [hc, hd]
      · simp [hc, hd]

theorem sortByName_filter_name (l : List Channel) (s : String) :
    ((sortByName l).filter (fun x => decide (x.name = s))) =
      (l.filter (fun x => decide (x.name = s))) := by
  induction l with
  | nil => rfl
  | cons c l ih =>
    rw [sortByName] at ih ⊢
    rw [List.insertionSort, orderedInsert_filter_name, List.filter_cons,
      List.filter_cons, ih]

/-- C6: the rendered document carries the removal-guidance section
exactly when the diff's `removed` list is non-empty (and the
`No Cleanup Needed` placeholder card otherwise); the removed entities
are listed sorted by name ascending with a stable sort (a permutation of
the input, pairwise sorted by name, and entities of equal name keep
their original relative order). -/
theorem cleanup_html_removed_section (c : DiffResult) (m : Metadata)
    (t : Timeline) :
    ((c.removed ≠ []) →
      (∃ pre post, generate_cleanup_html c m t =
          pre ++ (removedSectionHeader
            ++ String.join ((sortByName c.removed).map channelDivHtml)
            ++ cardClose) ++ post) ∧
      (sortByName c.removed).Perm c.removed ∧
      List.Sorted (fun a b => a.name ≤ b.name) (sortByName c.removed) ∧
      (∀ s : String,
        (sortByName c.removed).filter (fun x => decide (x.name = s)) =
          c.removed.filter (fun x => decide (x.name = s)))) ∧
    ((c.removed = []) →
      ∃ pre post, generate_cleanup_html c m t =
        pre ++ noCleanupSection ++ post) := by
  constructor
  · intro h
    refine ⟨⟨htmlHead m c,
        (if c.added ≠ [] then
            addedSectionHeader
              ++ String.join ((sortByName c.added).map channelDivHtml)
              ++ cardClose
          else "") ++ timelineOpenHtml ++
          (if t.entries ≠ [] then
              String.join
                  (((t.entries.drop (t.entries.length - 10)).reverse).map
                    timelineEntryHtml)
                ++ (if 10 < t.entries.length then
                      timelineMoreHtml t.entries.length
                    else "")
            else emptyTimelineMsg) ++ closingHtml, ?_⟩,
      List.perm_insertionSort _ _, List.sorted_insertionSort _ _,
      fun s => sortByName_filter_name _ _⟩
    simp [generate_cleanup_html, h, String.append_assoc]
  · intro h
    refine ⟨htmlHead m c,
        (if c.added ≠ [] then
            addedSectionHeader
              ++ String.join ((sortByName c.added).map channelDivHtml)
              ++ cardClose
          else "") ++ timelineOpenHtml ++
          (if t.entries ≠ [] then
              String.join
                  (((t.entries.drop (t.entries.length - 10)).reverse).map
                    timelineEntryHtml)
                ++ (if 10 < t.entries.length then
                      timelineMoreHtml t.entries.length
                    else "")
            else emptyTimelineMsg) ++ closingHtml, ?_⟩
    simp [generate_cleanup_html, h, String.append_assoc]

theorem cleanup_html_removed_section_witness :
    (sortByName [⟨"UCr", "Zeta"⟩, ⟨"UCs", "Alpha"⟩]).Perm
      [(⟨"UCr", "Zeta"⟩ : Channel), ⟨"UCs", "Alpha"⟩] :=
  ((cleanup_html_removed_section
      ⟨[], [⟨"UCr", "Zeta"⟩, ⟨"UCs", "Alpha"⟩], []⟩
      ⟨"t0", 2, []⟩ ⟨[]⟩).1 (by decide)).2.1

/-- C7: when the timeline is non-empty, the document displays exactly the
most recent `min 10 (length)` timeline entries, newest first; each
rendered entry lists at most the first 5 added and first 5 removed
channel names, with an `... and N more` line (N = stored count minus 5)
exactly when the corresponding stored count exceeds 5. -/
theorem cleanup_html_timeline_display (c : DiffResult) (m : Metadata)
    (t : Timeline) (h : t.entries ≠ []) :
    (∃ pre post, generate_cleanup_html c m t =
        pre ++ String.join ((t.entries.reverse.take 10).map timelineEntryHtml)
          ++ post) ∧
    (t.entries.reverse.take 10).length = min 10 t.entries.length ∧
    (∀ e : TimelineEntry, timelineEntryHtml e =
        entryHeadHtml e
          ++ (if 0 < e.added_count then
                addedDetailPart1 ++ toString e.added_count ++ addedDetailPart2
                  ++ String.join ((e.added_channels.take 5).map timelineChannelLine)
                  ++ (if 5 < e.added_count then
                        moreLineHtml (e.added_count - 5)
                      else "")
                  ++ detailClose
              else "")
          ++ (if 0 < e.removed_count then
                removedDetailPart1 ++ toString e.removed_count ++ removedDetailPart2
                  ++ String.join ((e.removed_channels.take 5).map timelineChannelLine)
                  ++ (if 5 < e.removed_count then
                        moreLineHtml (e.removed_count - 5)
                      else "")
                  ++ detailClose
              else "")
          ++ entryClose) := by
  refine ⟨?_, ?_, fun e => rfl⟩
  · have hrw : t.entries.reverse.take 10 =
        (t.entries.drop (t.entries.length - 10)).reverse := List.take_reverse
    refine ⟨htmlHead m c ++
        (if c.removed ≠ [] then
            removedSectionHeader
              ++ String.join ((sortByName c.removed).map channelDivHtml)
              ++ cardClose
          else noCleanupSection) ++
        (if c.added ≠ [] then
            addedSectionHeader
              ++ String.join ((sortByName c.added).map channelDivHtml)
              ++ cardClose
          else "") ++ timelineOpenHtml,
        (if 10 < t.entries.length then
            timelineMoreHtml t.entries.length
          else "") ++ closingHtml, ?_⟩
    rw [hrw]
    simp [generate_cleanup_html, h, String.append_assoc]
  · rw [List.length_take, List.length_reverse]

theorem cleanup_html_timeline_display_witness :
    ((⟨[⟨"t0", 1, 1, 0, 0, [⟨"UCx", "X"⟩], []⟩]⟩ :
        Timeline).entries.reverse.take 10).length =
      min 10 (⟨[⟨"t0", 1, 1, 0, 0, [⟨"UCx", "X"⟩], []⟩]⟩ :
        Timeline).entries.length :=
  (cleanup_html_timeline_display ⟨[], [], []⟩ ⟨"t0", 1, []⟩
      ⟨[⟨"t0", 1, 1, 0, 0, [⟨"UCx", "X"⟩], []⟩]⟩ (by decide)).2.1

/-- C8: the document carries the hidden-history footer exactly when the
timeline holds more than 10 entries; the footer names the total number
of recorded sync events (of which the last 10 are shown, so the hidden
count is determined) and notes that the full history is preserved in
the persisted `timeline.json` ledger. -/
theorem cleanup_html_hidden_footer (c : DiffResult) (m : Metadata)
    (t : Timeline) :
    (∃ pre, generate_cleanup_html c m t =
        pre ++ (if 10 < t.entries.length then
            timelineMoreHtml t.entries.length
          else "") ++ closingHtml) ∧
    (∀ n : Nat,
      (∃ u v, timelineMoreHtml n = u ++ toString n ++ v) ∧
      (∃ w x, timelineMoreHtml n =
        w ++ "Full history is preserved in timeline.json." ++ x)) := by
  constructor
  · by_cases h : t.entries ≠ []
    · refine ⟨htmlHead m c ++
          (if c.removed ≠ [] then
              removedSectionHeader
                ++ String.join ((sortByName c.removed).map channelDivHtml)
                ++ cardClose
            else noCleanupSection) ++
          (if c.added ≠ [] then
              addedSectionHeader
                ++ String.join ((sortByName c.added).map channelDivHtml)
                ++ cardClose
            else "") ++ timelineOpenHtml ++
          String.join
            (((t.entries.drop (t.entries.length - 10)).reverse).map
              timelineEntryHtml), ?_⟩
      simp [generate_cleanup_html, h, String.append_assoc]
    · push_neg at h
      have hlen : ¬(10 < t.entries.length) := by
        rw [h]
        decide
      refine ⟨htmlHead m c ++
          (if c.removed ≠ [] then
              removedSectionHeader
                ++ String.join ((sortByName c.removed).map channelDivHtml)
                ++ cardClose
            else noCleanupSection) ++
          (if c.added ≠ [] then
              addedSectionHeader
                ++ String.join ((sortByName c.added).map channelDivHtml)
                ++ cardClose
            else "") ++ timelineOpenHtml ++ emptyTimelineMsg, ?_⟩
      simp [generate_cleanup_html, h, hlen, String.append_assoc]
  · intro n
    constructor
    · exact ⟨tlMorePart1, tlMorePart2, rfl⟩
    · refine ⟨tlMorePart1 ++ toString n ++ " sync events.\n                ",
        "\n            </p>\n", ?_⟩
      have h2 : tlMorePart2 =
          " sync events.\n                " ++
            ("Full history is preserved in timeline.json." ++
              "\n            </p>\n") := rfl
      rw [timelineMoreHtml, h2]
      simp [String.append_assoc]

/-- C9: the renderer embeds entity names and ids only through
`html.escape`: the document is assembled from blocks in which every
channel name and id passes through `pyEscape` (`channelDivHtml` in the
removal and added sections, `timelineChannelLine` in timeline entries),
and escaped text never contains a raw markup character. -/
theorem cleanup_html_escapes_entities :
    (∀ (c : DiffResult) (m : Metadata) (t : Timeline),
      generate_cleanup_html c m t =
        htmlHead m c
          ++ (if c.removed ≠ [] then
                removedSectionHeader
                  ++ String.join ((sortByName c.removed).map channelDivHtml)
                  ++ cardClose
              else noCleanupSection)
          ++ (if c.added ≠ [] then
                addedSectionHeader
                  ++ String.join ((sortByName c.added).map channelDivHtml)
                  ++ cardClose
              else "")
          ++ timelineOpenHtml
          ++ (if t.entries ≠ [] then
                String.join
                    (((t.entries.drop (t.entries.length - 10)).reverse).map
                      timelineEntryHtml)
                  ++ (if 10 < t.entries.length then
                        timelineMoreHtml t.entries.length
                      else "")
              else emptyTimelineMsg)
          ++ closingHtml) ∧
    (∀ ch : Channel, channelDivHtml ch =
        chanDivPart1 ++ pyEscape ch.name ++ chanDivPart2
          ++ pyEscape ch.id ++ chanDivPart3) ∧
    (∀ ch : Channel, timelineChannelLine ch =
        tlChanPart1 ++ pyEscape ch.name ++ tlChanPart2) ∧
    (∀ s : String, ∀ ch ∈ (pyEscape s).data,
        ch ≠ '<' ∧ ch ≠ '>' ∧ ch ≠ '"' ∧ ch ≠ '\x27') :=
  ⟨fun _ _ _ => rfl, fun _ => rfl, fun _ => rfl, pyEscape_no_markup⟩

theorem cleanup_html_escapes_entities_witness :
    ('&' : Char) ≠ '<' ∧ ('&' : Char) ≠ '>' ∧ ('&' : Char) ≠ '"' ∧
      ('&' : Char) ≠ '\x27' :=
  cleanup_html_escapes_entities.2.2.2 "<i>" '&' (by decide)
